import Mathlib

/-!
Shallow embedding of the statistics aggregator in `src/include/statistics.h`
of HyperSerialPico (the anonymous `class { ... } statistics`).

Modelling conventions:
* `uint16_t` counters are `Nat` values kept below `2^16` by taking every
  increment modulo `U16`; `uint64_t` accumulators likewise modulo `U64`.
* `unsigned long` timestamps are plain `Nat` (no claim exercises their wrap).
* The `float`/`long double` percentage accumulators are modelled as exact
  rationals `ℚ`.  For the inputs the claims exercise (0, 1/2, 1) every
  floating-point operation of the source is exact, and for percentages in
  [0,1] the source's test `fabs(1 - u) < 0.00001` agrees with the exact
  comparison `|1 - u| < 1/100000` (the subtraction is exact by Sterbenz's
  lemma and no representable value falls between the rational and the
  rounded threshold).
* `print` writes to a serial sink; we model the numbers it derives and
  formats as a `Report` value, and its mutation of the state as returning
  the new state.  The stack/heap health figures and the final calibration
  line are external collaborators and are not modelled.
* The divisions in `print` (`double` divisions whose results are cast, and
  an integer division) are undefined/NaN when the divisor is zero; the
  model returns `none` in exactly those cases and the floor of the exact
  quotient otherwise.  For the integer averages the source first converts
  the `uint64_t` sums to `double`, which is exact only below `2^53`; the
  floor-of-exact-quotient model therefore coincides with the code when the
  sum and the count are below `2^53` and the exact quotient is itself an
  integer, and every theorem about these fields restricts its domain (or
  picks its inputs) accordingly.  Above `2^53` the double rounding can
  shift the reported average by one; no theorem below relies on the model
  in that regime.
-/

set_option maxRecDepth 10000

/-- Modulus of the `uint16_t` period counters. -/
def U16 : Nat := 2 ^ 16

/-- Modulus of the `uint64_t` cumulative accumulators. -/
def U64 : Nat := 2 ^ 64

/-- Fields of the anonymous statistics class, in source order
    (`statistics.h` lines 36-52). -/
structure AggState where
  startTime : Nat
  goodFrames : Nat
  showFrames : Nat
  totalFrames : Nat
  finalGoodFrames : Nat
  finalShowFrames : Nat
  finalTotalFrames : Nat
  milliampsSum : Nat
  underpowerDesiredMilliampsSum : Nat
  underpowerFramesCount : Nat
  framesCount : Nat
  underpowerPercentSum : ℚ
  powerPercentSum : ℚ
deriving DecidableEq

/-- The all-zero initial state (all members are zero-initialised). -/
def initState : AggState :=
  { startTime := 0, goodFrames := 0, showFrames := 0, totalFrames := 0
    finalGoodFrames := 0, finalShowFrames := 0, finalTotalFrames := 0
    milliampsSum := 0, underpowerDesiredMilliampsSum := 0
    underpowerFramesCount := 0, framesCount := 0
    underpowerPercentSum := 0, powerPercentSum := 0 }

/-- Source `increaseTotal` (line 70): `totalFrames++` on a `uint16_t`. -/
def increaseTotal (s : AggState) : AggState :=
  { s with totalFrames := (s.totalFrames + 1) % U16 }

/-- Source `increaseShow` (line 79): `showFrames++` on a `uint16_t`. -/
def increaseShow (s : AggState) : AggState :=
  { s with showFrames := (s.showFrames + 1) % U16 }

/-- Source `increaseGood` (line 107): `goodFrames++` on a `uint16_t`. -/
def increaseGood (s : AggState) : AggState :=
  { s with goodFrames := (s.goodFrames + 1) % U16 }

/-- Source `updatePowerStats` (lines 88-101), statement by statement:
    `framesCount++`; if `fabs(1 - underpowerPercentage) < 0.00001` then
    `underpowerFramesCount++`, `underpowerPercentSum += underpowerPercentage`,
    `underpowerDesiredMilliampsSum += underpowerDesiredMilliamps`; then
    unconditionally `powerPercentSum += powerPercentage`,
    `milliampsSum += milliamps`, and
    `underpowerDesiredMilliampsSum += underpowerDesiredMilliamps` a second
    time.  `milliamps` and `underpowerDesiredMilliamps` stand for `uint32_t`
    arguments. -/
def updatePowerStats (powerPercentage underpowerPercentage : ℚ)
    (milliamps underpowerDesiredMilliamps : Nat) (s : AggState) : AggState :=
  let s1 := { s with framesCount := (s.framesCount + 1) % U64 }
  let s2 :=
    if |1 - underpowerPercentage| < 1 / 100000 then
      { s1 with
        underpowerFramesCount := (s1.underpowerFramesCount + 1) % U64
        underpowerPercentSum := s1.underpowerPercentSum + underpowerPercentage
        underpowerDesiredMilliampsSum :=
          (s1.underpowerDesiredMilliampsSum + underpowerDesiredMilliamps) % U64 }
    else s1
  { s2 with
    powerPercentSum := s2.powerPercentSum + powerPercentage
    milliampsSum := (s2.milliampsSum + milliamps) % U64
    underpowerDesiredMilliampsSum :=
      (s2.underpowerDesiredMilliampsSum + underpowerDesiredMilliamps) % U64 }

/-- Source `update` (lines 127-140): when `totalFrames > 0` snapshot the
    period counters (clamping `finalGoodFrames` with `std::min`), then set
    `startTime` and zero the period counters. -/
def update (currentTime : Nat) (s : AggState) : AggState :=
  let s1 :=
    if 0 < s.totalFrames then
      { s with
        finalShowFrames := s.showFrames
        finalGoodFrames := min s.goodFrames s.totalFrames
        finalTotalFrames := s.totalFrames }
    else s
  { s1 with startTime := currentTime, goodFrames := 0, totalFrames := 0
            showFrames := 0 }

/-- Numbers derived and printed by `print` (lines 158-183).  The stack and
    heap figures, and the ratio `underpowerRequestedMilliampsAverage * 100 /
    milliampsAverage` printed on line 178 (a further unguarded division),
    come from or feed an external sink and are not modelled. -/
structure Report where
  finalShowFrames : Nat
  finalTotalFrames : Nat
  finalGoodFrames : Nat
  framesCount : Nat
  underpowerFramesCount : Nat
  powerPercentAverage : Option ℚ
  milliampsAverage : Option Nat
  underpowerPercentAverage : Option ℚ
  underpowerRequestedMilliampsAverage : Option Nat
  underpowerFramesPercent : Option Nat
deriving DecidableEq

/-- Source `print` (lines 148-188): it first sets `startTime = curTime` and
    zeroes the period counters, then derives the averages from the cumulative
    sums.  A division whose divisor is zero is NaN (for the `double`
    divisions, whose casts to integers are then undefined) or undefined
    behaviour (for the integer division on line 174); the model returns
    `none` there.  `milliampsAverage` and
    `underpowerRequestedMilliampsAverage` stand for
    `(uint32_t)((double)sum / (double)count)` (lines 160 and 163), modelled
    as the floor of the exact quotient: faithful when sum and count are
    below `2^53` (exact `double` conversions) and the quotient is an
    integer below `2^32` (see the header note); `underpowerFramesPercent`
    is the `uint64_t` expression `underpowerFramesCount * 100 / framesCount`
    of line 174, whose product wraps modulo `2^64`. -/
def print (curTime : Nat) (s : AggState) : AggState × Report :=
  let stateAfter :=
    { s with startTime := curTime, goodFrames := 0, totalFrames := 0
             showFrames := 0 }
  let rep : Report :=
    { finalShowFrames := s.finalShowFrames
      finalTotalFrames := s.finalTotalFrames
      finalGoodFrames := s.finalGoodFrames
      framesCount := s.framesCount
      underpowerFramesCount := s.underpowerFramesCount
      powerPercentAverage :=
        if s.framesCount = 0 then none
        else some (s.powerPercentSum / (s.framesCount : ℚ) * 100)
      milliampsAverage :=
        if s.framesCount = 0 then none
        else some (s.milliampsSum / s.framesCount)
      underpowerPercentAverage :=
        if s.underpowerFramesCount = 0 then none
        else some (s.underpowerPercentSum / (s.underpowerFramesCount : ℚ) * 100)
      underpowerRequestedMilliampsAverage :=
        if s.underpowerFramesCount = 0 then none
        else some (s.underpowerDesiredMilliampsSum / s.underpowerFramesCount)
      underpowerFramesPercent :=
        if s.framesCount = 0 then none
        else some (s.underpowerFramesCount * 100 % U64 / s.framesCount) }
  (stateAfter, rep)

/-- Source `reset` (lines 194-213): zero every field and set `startTime`. -/
def reset (currentTime : Nat) (s : AggState) : AggState :=
  { s with startTime := currentTime
           finalShowFrames := 0, finalGoodFrames := 0, finalTotalFrames := 0
           goodFrames := 0, totalFrames := 0, showFrames := 0
           milliampsSum := 0, underpowerDesiredMilliampsSum := 0
           underpowerFramesCount := 0, framesCount := 0
           underpowerPercentSum := 0, powerPercentSum := 0 }

/-- Source `lightReset` (lines 215-223): set `startTime` only when `hasData`,
    then zero the period counters. -/
def lightReset (curTime : Nat) (hasData : Bool) (s : AggState) : AggState :=
  let s1 := if hasData then { s with startTime := curTime } else s
  { s1 with goodFrames := 0, totalFrames := 0, showFrames := 0 }

/-- Argument tuple of one `updatePowerStats` call. -/
structure PowerCall where
  powerPercentage : ℚ
  underpowerPercentage : ℚ
  milliamps : Nat
  underpowerDesiredMilliamps : Nat

/-- Apply one recorded call to the state. -/
def applyCall (c : PowerCall) (s : AggState) : AggState :=
  updatePowerStats c.powerPercentage c.underpowerPercentage c.milliamps
    c.underpowerDesiredMilliamps s

/-- Run a sequence of `updatePowerStats` calls, first call first. -/
def runCalls (cs : List PowerCall) (s : AggState) : AggState :=
  cs.foldl (fun t c => applyCall c t) s

/-- Classification used by the source: the frame is current-limited when
    `fabs(1 - underpowerPercentage) < 0.00001`. -/
def isLimitedCall (c : PowerCall) : Bool :=
  |1 - c.underpowerPercentage| < 1 / 100000

/-- Concrete state with a non-trivial snapshot and an empty current period,
    used to exercise `update` on a period that saw no frames. -/
def snapshotOnlyState : AggState :=
  { initState with finalGoodFrames := 3, finalShowFrames := 4
                   finalTotalFrames := 5, goodFrames := 2, showFrames := 9 }

theorem U64_pos : 0 < U64 := by norm_num [U64]

theorem runCalls_cons (c : PowerCall) (cs : List PowerCall) (s : AggState) :
    runCalls (c :: cs) s = runCalls cs (applyCall c s) := rfl

theorem applyCall_framesCount (c : PowerCall) (s : AggState) :
    (applyCall c s).framesCount = (s.framesCount + 1) % U64 := by
  simp only [applyCall, updatePowerStats]
  split <;> rfl

theorem applyCall_milliampsSum (c : PowerCall) (s : AggState) :
    (applyCall c s).milliampsSum = (s.milliampsSum + c.milliamps) % U64 := by
  simp only [applyCall, updatePowerStats]
  split <;> rfl

theorem applyCall_underpowerFramesCount (c : PowerCall) (s : AggState) :
    (applyCall c s).underpowerFramesCount =
      if isLimitedCall c then (s.underpowerFramesCount + 1) % U64
      else s.underpowerFramesCount := by
  simp only [applyCall, updatePowerStats, isLimitedCall, decide_eq_true_eq]
  split <;> rfl

theorem runCalls_framesCount (cs : List PowerCall) :
    ∀ s : AggState, s.framesCount < U64 →
      (runCalls cs s).framesCount = (s.framesCount + cs.length) % U64 := by
  induction cs with
  | nil => intro s h; simpa [runCalls] using (Nat.mod_eq_of_lt h).symm
  | cons c cs ih =>
      intro s h
      rw [runCalls_cons,
        ih _ (by rw [applyCall_framesCount]; exact Nat.mod_lt _ U64_pos),
        applyCall_framesCount, Nat.mod_add_mod]
      congr 1
      simp only [List.length_cons]
      omega

theorem runCalls_milliampsSum (cs : List PowerCall) :
    ∀ s : AggState, s.milliampsSum < U64 →
      (runCalls cs s).milliampsSum =
        (s.milliampsSum + (cs.map PowerCall.milliamps).sum) % U64 := by
  induction cs with
  | nil => intro s h; simpa [runCalls] using (Nat.mod_eq_of_lt h).symm
  | cons c cs ih =>
      intro s h
      rw [runCalls_cons,
        ih _ (by rw [applyCall_milliampsSum]; exact Nat.mod_lt _ U64_pos),
        applyCall_milliampsSum, Nat.mod_add_mod]
      congr 1
      simp only [List.map_cons, List.sum_cons]
      omega

theorem runCalls_underpowerFramesCount (cs : List PowerCall) :
    ∀ s : AggState, s.underpowerFramesCount < U64 →
      (runCalls cs s).underpowerFramesCount =
        (s.underpowerFramesCount + cs.countP isLimitedCall) % U64 := by
  induction cs with
  | nil => intro s h; simpa [runCalls] using (Nat.mod_eq_of_lt h).symm
  | cons c cs ih =>
      intro s h
      by_cases hc : isLimitedCall c
      · rw [runCalls_cons,
          ih _ (by rw [applyCall_underpowerFramesCount, if_pos hc]
                   exact Nat.mod_lt _ U64_pos),
          applyCall_underpowerFramesCount, if_pos hc, Nat.mod_add_mod]
        congr 1
        simp only [List.countP_cons, hc, if_pos]
        omega
      · rw [runCalls_cons,
          ih _ (by rw [applyCall_underpowerFramesCount, if_neg hc]; exact h),
          applyCall_underpowerFramesCount, if_neg hc]
        congr 1
        simp [List.countP_cons, hc]

/-- Claim C1 (counterexample): starting from the all-zero state, one call
    `updatePowerStats(0.5, 1.0, 1000, 2000)` followed by rendering the report
    does NOT yield `underpowerRequestedMilliampsAverage = 2000`: the frame is
    current-limited, so `underpowerDesiredMilliampsSum` receives 2000 twice
    (lines 95 and 100 of the source) and the reported average is 4000. -/
theorem single_limited_call_requested_avg_ne_2000 :
    (print 0 (updatePowerStats (1/2) 1 1000 2000 initState)).2.underpowerRequestedMilliampsAverage
      ≠ some 2000 := by
  norm_num [print, updatePowerStats, initState, U64]

/-- Claim C1 (amended): starting from the all-zero state, one call
    `updatePowerStats(0.5, 1.0, 1000, 2000)` followed by rendering the report
    yields `framesCount = 1`, `underpowerFramesCount = 1`,
    `milliampsAverage = 1000`, `underpowerRequestedMilliampsAverage = 4000`
    (the desired current is accumulated twice for a limited frame),
    `powerPercentAverage = 50` and `underpowerPercentAverage = 100`. -/
theorem single_limited_call_report_values :
    (print 0 (updatePowerStats (1/2) 1 1000 2000 initState)).2.framesCount = 1 ∧
    (print 0 (updatePowerStats (1/2) 1 1000 2000 initState)).2.underpowerFramesCount = 1 ∧
    (print 0 (updatePowerStats (1/2) 1 1000 2000 initState)).2.milliampsAverage = some 1000 ∧
    (print 0 (updatePowerStats (1/2) 1 1000 2000 initState)).2.underpowerRequestedMilliampsAverage
      = some 4000 ∧
    (print 0 (updatePowerStats (1/2) 1 1000 2000 initState)).2.powerPercentAverage = some 50 ∧
    (print 0 (updatePowerStats (1/2) 1 1000 2000 initState)).2.underpowerPercentAverage
      = some 100 := by
  refine ⟨?_, ?_, ?_, ?_, ?_, ?_⟩ <;> norm_num [print, updatePowerStats, initState, U64]

/-- Claim C2: on a current-limited call (`|1 - underpowerPercentage| < 1e-5`)
    `underpowerDesiredMilliampsSum` grows by `2 * underpowerDesiredMilliamps`
    (one conditional plus one unconditional addition, each reduced modulo
    `2^64` as on the `uint64_t` member); on a non-limited call it grows by
    `underpowerDesiredMilliamps` once. -/
theorem updatePowerStats_underpowerDesiredMilliampsSum_delta
    (s : AggState) (p u : ℚ) (m d : Nat) :
    (|1 - u| < 1 / 100000 →
      (updatePowerStats p u m d s).underpowerDesiredMilliampsSum =
        (s.underpowerDesiredMilliampsSum + 2 * d) % U64) ∧
    (¬ |1 - u| < 1 / 100000 →
      (updatePowerStats p u m d s).underpowerDesiredMilliampsSum =
        (s.underpowerDesiredMilliampsSum + d) % U64) := by
  constructor <;> intro h
  · simp only [updatePowerStats, if_pos h, Nat.mod_add_mod]
    congr 1
    ring
  · simp only [updatePowerStats, if_neg h]

/-- Witness for C2 at a concrete limited call. -/
theorem updatePowerStats_underpowerDesiredMilliampsSum_delta_witness :
    (updatePowerStats 0 1 0 7 initState).underpowerDesiredMilliampsSum = 14 :=
  ((updatePowerStats_underpowerDesiredMilliampsSum_delta initState 0 1 0 7).1
    (by simp)).trans (by decide)

/-- Claim C3: after `reset`, rendering the report divides by
    `framesCount = 0` and `underpowerFramesCount = 0`; in the source those
    divisions are NaN (whose casts to integers are undefined) or undefined
    integer division, modelled here as `none`: no derived average is a
    defined value, contradicting the required guard. -/
theorem print_after_reset_averages_undefined (s : AggState) (t t' : Nat) :
    (print t' (reset t s)).2.powerPercentAverage = none ∧
    (print t' (reset t s)).2.milliampsAverage = none ∧
    (print t' (reset t s)).2.underpowerPercentAverage = none ∧
    (print t' (reset t s)).2.underpowerRequestedMilliampsAverage = none ∧
    (print t' (reset t s)).2.underpowerFramesPercent = none := by
  simp [print, reset]

/-- Claim C4: whenever the period saw at least one total frame, `update`
    snapshots `finalGoodFrames = min goodFrames totalFrames` (clamped) and
    `finalTotalFrames = totalFrames`. -/
theorem update_clamps_finalGoodFrames (s : AggState) (t : Nat)
    (h : 0 < s.totalFrames) :
    (update t s).finalGoodFrames = min s.goodFrames s.totalFrames ∧
    (update t s).finalTotalFrames = s.totalFrames := by
  simp [update, if_pos h]

/-- Witness for C4: ten `increaseTotal` calls and twelve `increaseGood`
    calls, then `update`, give `finalGoodFrames = 10` (clamped, not 12). -/
theorem update_clamps_finalGoodFrames_witness :
    (update 77 (increaseGood^[12] (increaseTotal^[10] initState))).finalGoodFrames = 10 ∧
    (update 77 (increaseGood^[12] (increaseTotal^[10] initState))).finalTotalFrames = 10 := by
  have h := update_clamps_finalGoodFrames
    (increaseGood^[12] (increaseTotal^[10] initState)) 77 (by decide)
  exact ⟨h.1.trans (by decide), h.2.trans (by decide)⟩

/-- Claim C5 (counterexample): after exactly `2^64` calls the `uint64_t`
    counter has wrapped, so `framesCount` is 0, not the number of calls. -/
theorem runCalls_framesCount_wrap_counterexample :
    (runCalls (List.replicate U64 ⟨0, 0, 0, 0⟩) (reset 0 initState)).framesCount ≠
      (List.replicate U64 (⟨0, 0, 0, 0⟩ : PowerCall)).length := by
  rw [runCalls_framesCount _ _ (by norm_num [reset, initState, U64]),
    List.length_replicate]
  show (0 + U64) % U64 ≠ U64
  rw [Nat.zero_add, Nat.mod_self]
  exact (Nat.pos_iff_ne_zero.mp U64_pos).symm

/-- Claim C5 (amended): for every sequence of `updatePowerStats` calls
    starting from a reset state, `framesCount` equals the number of calls
    reduced modulo `2^64`, and `underpowerFramesCount` equals the number of
    calls with `|1 - underpowerPercentage| < 1e-5` reduced modulo `2^64`
    (so they equal the plain counts whenever fewer than `2^64` calls were
    made). -/
theorem runCalls_counts (cs : List PowerCall) (s : AggState) (t : Nat) :
    (runCalls cs (reset t s)).framesCount = cs.length % U64 ∧
    (runCalls cs (reset t s)).underpowerFramesCount =
      cs.countP isLimitedCall % U64 := by
  constructor
  · rw [runCalls_framesCount _ _ (by norm_num [reset, U64])]
    norm_num [reset]
  · rw [runCalls_underpowerFramesCount _ _ (by norm_num [reset, U64])]
    norm_num [reset]

/-- Claim C6: `finalGoodFrames ≤ finalTotalFrames` holds in the all-zero
    initial state and is preserved by every operation of the aggregator:
    the only writes to `finalGoodFrames` clamp it to
    `min goodFrames totalFrames` (in `update`) or zero it (in `reset`). -/
theorem finalTotal_ge_finalGood_invariant :
    initState.finalGoodFrames ≤ initState.finalTotalFrames ∧
    ∀ (s : AggState), s.finalGoodFrames ≤ s.finalTotalFrames →
      ∀ (t : Nat) (b : Bool) (p u : ℚ) (m d : Nat),
        (increaseTotal s).finalGoodFrames ≤ (increaseTotal s).finalTotalFrames ∧
        (increaseGood s).finalGoodFrames ≤ (increaseGood s).finalTotalFrames ∧
        (increaseShow s).finalGoodFrames ≤ (increaseShow s).finalTotalFrames ∧
        (updatePowerStats p u m d s).finalGoodFrames ≤
          (updatePowerStats p u m d s).finalTotalFrames ∧
        (update t s).finalGoodFrames ≤ (update t s).finalTotalFrames ∧
        (print t s).1.finalGoodFrames ≤ (print t s).1.finalTotalFrames ∧
        (reset t s).finalGoodFrames ≤ (reset t s).finalTotalFrames ∧
        (lightReset t b s).finalGoodFrames ≤ (lightReset t b s).finalTotalFrames := by
  refine ⟨Nat.le_refl 0, ?_⟩
  intro s h t b p u m d
  refine ⟨h, h, h, ?_, ?_, h, Nat.le_refl 0, ?_⟩
  · simp only [updatePowerStats]
    split <;> exact h
  · simp only [update]
    split
    · exact Nat.min_le_right _ _
    · exact h
  · simp only [lightReset]
    split <;> exact h

/-- Witness for C6: the invariant is preserved across `update` at a concrete
    state. -/
theorem finalTotal_ge_finalGood_invariant_witness :
    (update 3 initState).finalGoodFrames ≤ (update 3 initState).finalTotalFrames :=
  (finalTotal_ge_finalGood_invariant.2 initState (by decide) 3 false 0 0 0 0).2.2.2.2.1

/-- Claim C7: calling `update` while `totalFrames = 0` leaves the three
    snapshot fields unchanged; only `startTime` is set to the given
    timestamp and the current-period counters are zeroed. -/
theorem update_empty_period_preserves_snapshot (s : AggState) (t : Nat)
    (h : s.totalFrames = 0) :
    (update t s).finalGoodFrames = s.finalGoodFrames ∧
    (update t s).finalShowFrames = s.finalShowFrames ∧
    (update t s).finalTotalFrames = s.finalTotalFrames ∧
    (update t s).startTime = t ∧
    (update t s).goodFrames = 0 ∧
    (update t s).totalFrames = 0 ∧
    (update t s).showFrames = 0 := by
  simp [update, h]

/-- Witness for C7 at a concrete state with a non-trivial prior snapshot. -/
theorem update_empty_period_preserves_snapshot_witness :
    (update 6 snapshotOnlyState).finalGoodFrames = 3 ∧
    (update 6 snapshotOnlyState).finalShowFrames = 4 ∧
    (update 6 snapshotOnlyState).finalTotalFrames = 5 ∧
    (update 6 snapshotOnlyState).startTime = 6 ∧
    (update 6 snapshotOnlyState).goodFrames = 0 ∧
    (update 6 snapshotOnlyState).totalFrames = 0 ∧
    (update 6 snapshotOnlyState).showFrames = 0 :=
  update_empty_period_preserves_snapshot snapshotOnlyState 6 (by decide)

/-- Claim C8: `update` never modifies any cumulative power-limiting field,
    and `lightReset` with `hasData = false` leaves `startTime` and all
    cumulative power fields unchanged while zeroing only the three
    current-period counters. -/
theorem update_and_lightReset_preserve_power_sums (s : AggState) (t : Nat) :
    (update t s).milliampsSum = s.milliampsSum ∧
    (update t s).underpowerDesiredMilliampsSum = s.underpowerDesiredMilliampsSum ∧
    (update t s).underpowerFramesCount = s.underpowerFramesCount ∧
    (update t s).framesCount = s.framesCount ∧
    (update t s).underpowerPercentSum = s.underpowerPercentSum ∧
    (update t s).powerPercentSum = s.powerPercentSum ∧
    (lightReset t false s).startTime = s.startTime ∧
    (lightReset t false s).milliampsSum = s.milliampsSum ∧
    (lightReset t false s).underpowerDesiredMilliampsSum = s.underpowerDesiredMilliampsSum ∧
    (lightReset t false s).underpowerFramesCount = s.underpowerFramesCount ∧
    (lightReset t false s).framesCount = s.framesCount ∧
    (lightReset t false s).underpowerPercentSum = s.underpowerPercentSum ∧
    (lightReset t false s).powerPercentSum = s.powerPercentSum ∧
    (lightReset t false s).goodFrames = 0 ∧
    (lightReset t false s).totalFrames = 0 ∧
    (lightReset t false s).showFrames = 0 := by
  refine ⟨?_, ?_, ?_, ?_, ?_, ?_, rfl, rfl, rfl, rfl, rfl, rfl, rfl, rfl, rfl, rfl⟩ <;>
    (simp only [update]; split <;> rfl)

/-- Claim C9 (counterexample): after `2^64` calls with `milliamps = 1` the
    64-bit counters have wrapped to zero, so the reported average is
    undefined (NaN in the source), not 1. -/
theorem constant_milliamps_average_wrap_counterexample :
    (print 0 (runCalls (List.replicate U64 ⟨0, 0, 1, 0⟩)
      (reset 0 initState))).2.milliampsAverage ≠ some 1 := by
  have hfc : (runCalls (List.replicate U64 ⟨0, 0, 1, 0⟩)
      (reset 0 initState)).framesCount = 0 := by
    rw [runCalls_framesCount _ _ (by norm_num [reset, initState, U64]),
      List.length_replicate]
    show (0 + U64) % U64 = 0
    rw [Nat.zero_add, Nat.mod_self]
  simp [print, hfc]

/-- Claim C9 (amended): after `N` calls that all pass the identical
    `uint32_t` value `milliamps = m` (so `m < 2^32`), starting from a reset
    state, the reported `milliampsAverage` equals `m` exactly, provided
    `1 ≤ N`, `N < 2^53` and `N * m < 2^53`.  Within these bounds the
    source's conversions of `milliampsSum` and `framesCount` to `double`
    on line 160 are exact, the exact quotient `m` is a representable
    integer below `2^32`, and the correctly rounded IEEE division returns
    it, so the floor-division model agrees with the code on this whole
    domain.  Beyond `2^53` the double rounding can report `m - 1` (e.g.
    `m = 1000`, `N = 9223372036854787`), and at `N = 2^64` the counters
    wrap (the counterexample above), so the bounds cannot be relaxed to
    the claim's "every N ≥ 1". -/
theorem constant_milliamps_average_exact (N m : Nat) (p u : ℚ) (d t t' : Nat)
    (s : AggState) (_h0 : m < 2 ^ 32) (h1 : 1 ≤ N) (h2 : N < 2 ^ 53)
    (h3 : N * m < 2 ^ 53) :
    (print t' (runCalls (List.replicate N ⟨p, u, m, d⟩)
      (reset t s))).2.milliampsAverage = some m := by
  have hfc : (runCalls (List.replicate N ⟨p, u, m, d⟩)
      (reset t s)).framesCount = N := by
    rw [runCalls_framesCount _ _ (by norm_num [reset, U64]),
      List.length_replicate]
    show ((reset t s).framesCount + N) % U64 = N
    rw [show (reset t s).framesCount = 0 from rfl, Nat.zero_add,
      Nat.mod_eq_of_lt (lt_trans h2 (by norm_num [U64]))]
  have hms : (runCalls (List.replicate N ⟨p, u, m, d⟩)
      (reset t s)).milliampsSum = N * m := by
    rw [runCalls_milliampsSum _ _ (by norm_num [reset, U64])]
    rw [show (reset t s).milliampsSum = 0 from rfl, Nat.zero_add]
    rw [List.map_replicate]
    show (List.replicate N m).sum % U64 = N * m
    rw [List.sum_replicate, smul_eq_mul,
      Nat.mod_eq_of_lt (lt_trans h3 (by norm_num [U64]))]
  have hN : N ≠ 0 := Nat.one_le_iff_ne_zero.mp h1
  simp [print, hfc, hms, hN, Nat.mul_div_cancel_left m (Nat.pos_of_ne_zero hN)]

/-- Witness for C9 at `N = 3`, `m = 5`. -/
theorem constant_milliamps_average_exact_witness :
    (print 0 (runCalls (List.replicate 3 ⟨0, 0, 5, 0⟩)
      (reset 0 initState))).2.milliampsAverage = some 5 :=
  constant_milliamps_average_exact 3 5 0 0 0 0 0 initState (by decide)
    (by decide) (by decide) (by decide)

/-- Claim C10: `update` copies `showFrames` into `finalShowFrames` without
    clamping it against `totalFrames`, so `finalShowFrames` can exceed
    `finalTotalFrames`: two `increaseShow` calls and one `increaseTotal`
    call followed by `update` produce `finalShowFrames = 2 >
    finalTotalFrames = 1`. -/
theorem finalShowFrames_unclamped :
    (∀ (s : AggState) (t : Nat), 0 < s.totalFrames →
        (update t s).finalShowFrames = s.showFrames) ∧
    (update 0 (increaseShow (increaseShow (increaseTotal initState)))).finalShowFrames >
      (update 0 (increaseShow (increaseShow (increaseTotal initState)))).finalTotalFrames := by
  constructor
  · intro s t h
    simp [update, if_pos h]
  · decide

/-- Witness for C10: the unclamped snapshot at the concrete sequence. -/
theorem finalShowFrames_unclamped_witness :
    (update 0 (increaseShow (increaseShow (increaseTotal initState)))).finalShowFrames = 2 :=
  (finalShowFrames_unclamped.1 (increaseShow (increaseShow (increaseTotal initState))) 0
    (by decide)).trans (by decide)
